import Mathlib

/-!
Verification development for the pwmgr encrypted-storage engine
(`src/pwmgr/crypto/encryption.py`, `src/pwmgr/core/storage.py`,
`src/pwmgr/core/models.py`).

Modelling conventions:
* Python `bytes` values are `List Nat` with every element `< 256`
  (`ByteValid`); concatenation and slicing map to `++` / `take` / `drop`.
* The external cryptography library primitives (`PBKDF2HMAC`, AES-GCM,
  AES-CBC+PKCS7) and the `json` module are not repository code; they are
  modelled as the fields of a `Prims` record, and the theorems assume their
  documented contracts pointwise at the inputs where the proofs need them.
  The UTF-8 encode/decode performed inside `_encrypt_gcm` / `_decrypt_gcm` /
  `_encrypt_cbc` / `_decrypt_cbc` is folded into those primitives, whose
  Lean signatures therefore work on `String` plaintext, exactly like the
  Python helpers do.
* A Python exception is an `Except PyErr` error value; a `try/except`
  returning `None` maps the error branch to `none`.
* Randomness (`os.urandom` for salt / nonce / iv, `uuid.uuid4()`,
  `datetime.now()`) is passed in as explicit arguments.
* `base64.b64encode` / `base64.b64decode` are implemented concretely: the
  decoder accepts canonical base64 (the Python decoder additionally discards
  foreign characters before chunking; no behaviour proved here exercises that
  leniency, since every decoded input is either encoder output or empty).
-/

namespace PwMgr

/-- Python `bytes` as lists of naturals. -/
abbrev Bytes := List Nat

/-- Every element of the byte string is an actual byte value. -/
def ByteValid (bs : Bytes) : Prop := ∀ b ∈ bs, b < 256

instance (bs : Bytes) : Decidable (ByteValid bs) := by
  unfold ByteValid; infer_instance

/-! ### base64 (`base64.b64encode` / `base64.b64decode`) -/

/-- The standard base64 alphabet. -/
def b64alphabet : List Char :=
  "ABCDEFGHIJKLMNOPQRSTUVWXYZabcdefghijklmnopqrstuvwxyz0123456789+/".toList

/-- Character for a 6-bit group. -/
def sextetChar (n : Nat) : Char := b64alphabet.getD n 'A'

/-- Inverse lookup in the base64 alphabet. -/
def charSextet (c : Char) : Option Nat := b64alphabet.findIdx? (fun d => d = c)

/-- Encode bytes three at a time into four base64 characters, padding the
final group with `=` as `base64.b64encode` does. -/
def b64encodeChunks : Bytes → List Char
  | a :: b :: c :: rest =>
    sextetChar (a / 4) :: sextetChar (a % 4 * 16 + b / 16) ::
      sextetChar (b % 16 * 4 + c / 64) :: sextetChar (c % 64) :: b64encodeChunks rest
  | [a, b] => [sextetChar (a / 4), sextetChar (a % 4 * 16 + b / 16), sextetChar (b % 16 * 4), '=']
  | [a] => [sextetChar (a / 4), sextetChar (a % 4 * 16), '=', '=']
  | [] => []

/-- `base64.b64encode(bs).decode('utf-8')`. -/
def b64encode (bs : Bytes) : String := String.mk (b64encodeChunks bs)

/-- Decode four base64 characters at a time; `=` padding is legal only in the
last chunk. Any other shape is a decode error (`binascii.Error`). -/
def b64decodeChunks : List Char → Option Bytes
  | [] => some []
  | c0 :: c1 :: c2 :: c3 :: rest =>
    match charSextet c0, charSextet c1 with
    | some s0, some s1 =>
      if c2 = '=' then
        if c3 = '=' ∧ rest = [] then some [s0 * 4 + s1 / 16] else none
      else
        match charSextet c2 with
        | some s2 =>
          if c3 = '=' then
            if rest = [] then some [s0 * 4 + s1 / 16, s1 % 16 * 16 + s2 / 4] else none
          else
            match charSextet c3 with
            | some s3 =>
              (b64decodeChunks rest).map
                (fun bs => (s0 * 4 + s1 / 16) :: (s1 % 16 * 16 + s2 / 4) :: (s2 % 4 * 64 + s3) :: bs)
            | none => none
        | none => none
    | _, _ => none
  | _ => none

/-- `base64.b64decode` on text, `none` on a decode error. -/
def b64decode (s : String) : Option Bytes := b64decodeChunks s.toList

theorem charSextet_sextetChar : ∀ n, n < 64 → charSextet (sextetChar n) = some n := by
  decide

theorem sextetChar_ne_eq (n : Nat) (h : n < 64) : sextetChar n ≠ '=' := by
  intro heq
  have h1 := charSextet_sextetChar n h
  rw [heq] at h1
  simp [charSextet, b64alphabet] at h1

theorem b64decodeChunks_encodeChunks (bs : Bytes) (h : ByteValid bs) :
    b64decodeChunks (b64encodeChunks bs) = some bs := by
  induction bs using b64encodeChunks.induct with
  | case1 a b c rest ih =>
    have ha : a < 256 := h a (by simp)
    have hb : b < 256 := h b (by simp)
    have hc : c < 256 := h c (by simp)
    have hrest : ByteValid rest := fun x hx => h x (by simp [hx])
    have b0 : a / 4 < 64 := by omega
    have b1 : a % 4 * 16 + b / 16 < 64 := by omega
    have b2 : b % 16 * 4 + c / 64 < 64 := by omega
    have b3 : c % 64 < 64 := by omega
    simp only [b64encodeChunks, b64decodeChunks, charSextet_sextetChar _ b0,
      charSextet_sextetChar _ b1, charSextet_sextetChar _ b2, charSextet_sextetChar _ b3,
      sextetChar_ne_eq _ b2, sextetChar_ne_eq _ b3, if_false, ite_false, ih hrest,
      Option.map_some', Option.some.injEq, List.cons.injEq, and_true]
    refine ⟨by omega, by omega, by omega⟩
  | case2 a b =>
    have ha : a < 256 := h a (by simp)
    have hb : b < 256 := h b (by simp)
    have b0 : a / 4 < 64 := by omega
    have b1 : a % 4 * 16 + b / 16 < 64 := by omega
    have b2 : b % 16 * 4 < 64 := by omega
    simp only [b64encodeChunks, b64decodeChunks, charSextet_sextetChar _ b0,
      charSextet_sextetChar _ b1, charSextet_sextetChar _ b2, sextetChar_ne_eq _ b2,
      if_false, ite_false, if_true, ite_true, Option.some.injEq, List.cons.injEq, and_true]
    refine ⟨by omega, by omega⟩
  | case3 a =>
    have ha : a < 256 := h a (by simp)
    have b0 : a / 4 < 64 := by omega
    have b1 : a % 4 * 16 < 64 := by omega
    simp only [b64encodeChunks, b64decodeChunks, charSextet_sextetChar _ b0,
      charSextet_sextetChar _ b1, if_true, ite_true, Option.some.injEq, List.cons.injEq,
      and_self, and_true]
    omega
  | case4 =>
    simp [b64encodeChunks, b64decodeChunks]

theorem b64_roundtrip (bs : Bytes) (h : ByteValid bs) : b64decode (b64encode bs) = some bs := by
  unfold b64decode b64encode
  have : (String.mk (b64encodeChunks bs)).toList = b64encodeChunks bs := rfl
  rw [this, b64decodeChunks_encodeChunks bs h]

/-! ### Python exceptions and the external-library primitives -/

/-- Kinds of Python exception relevant to the modelled code paths. -/
inductive PyErr
  | keyError
  | typeError
  | valueError
  | jsonError
  | ioError
  | invalidTag
  | unicodeError
  | paddingError
deriving DecidableEq

/-- External-library primitives used by `encryption.py` and `storage.py`:
PBKDF2 key derivation, AES-256-GCM, AES-256-CBC+PKCS7 (all from the
`cryptography` package), and the `json` module. They are parameters of the
embedding; theorems assume their documented contracts pointwise. The UTF-8
encode/decode done inside the `_encrypt_*` / `_decrypt_*` helpers is folded
into these fields, matching those helpers' `str`-level signatures.
`json_dumps`/`json_loads` map the entries list of the vault dictionary
`{"entries": [...]}` to/from its JSON text (`json_loads` models `json.loads`
followed by `data.get("entries", [])`). -/
structure Prims where
  derive_key : String → Bytes → Bytes
  encrypt_gcm : String → Bytes → Bytes → Bytes × Bytes
  decrypt_gcm : Bytes → Bytes → Bytes → Bytes → Except PyErr String
  encrypt_cbc : String → Bytes → Bytes → Bytes
  decrypt_cbc : Bytes → Bytes → Bytes → Except PyErr String
  json_dumps : List (List (String × Option String)) → String
  json_loads : String → Except PyErr (List (List (String × Option String)))

/-! ### Data model (`src/pwmgr/core/models.py`) -/

/-- A JSON object with string-or-null values, as produced by
`PasswordEntry.to_dict` and consumed by `PasswordEntry.from_dict`. -/
abbrev Dict := List (String × Option String)

/-- `PasswordEntry` dataclass. -/
structure PasswordEntry where
  name : String
  username : String
  password : String
  notes : Option String
  id : String
  created_at : String
  updated_at : String
deriving DecidableEq

/-- Python `dict` key lookup: `some v` when the key is present with value `v`
(`v = none` is JSON null), `none` when the key is absent. -/
def dictGet (d : Dict) (k : String) : Option (Option String) :=
  (d.find? (fun p => p.1 == k)).map (fun p => p.2)

/-- `PasswordEntry.to_dict`. -/
def PasswordEntry.to_dict (e : PasswordEntry) : Dict :=
  [("id", some e.id), ("name", some e.name), ("username", some e.username),
   ("password", some e.password), ("notes", e.notes),
   ("created_at", some e.created_at), ("updated_at", some e.updated_at)]

/-- `data[k]` on a field the dataclass types as `str`: raises `KeyError` when
the key is absent. A JSON null in such a field would make Python build an
ill-typed entry; the vault files written by this program never contain null
there, and the model rejects it. -/
def reqField (d : Dict) (k : String) : Except PyErr String :=
  match dictGet d k with
  | none => Except.error PyErr.keyError
  | some none => Except.error PyErr.typeError
  | some (some s) => Except.ok s

/-- `data.get(k, default)` on a `str`-typed field (null treated as absent,
see `reqField`). -/
def optField (d : Dict) (k : String) (dflt : String) : String :=
  match dictGet d k with
  | some (some s) => s
  | some none => dflt
  | none => dflt

/-- `PasswordEntry.from_dict`. The fresh `uuid.uuid4()` and the two
`datetime.now().isoformat()` defaults are passed in explicitly. -/
def PasswordEntry.from_dict (data : Dict) (freshId nowCreated nowUpdated : String) :
    Except PyErr PasswordEntry :=
  match reqField data "name" with
  | Except.error e => Except.error e
  | Except.ok name =>
    match reqField data "username" with
    | Except.error e => Except.error e
    | Except.ok username =>
      match reqField data "password" with
      | Except.error e => Except.error e
      | Except.ok password =>
        Except.ok
          { id := optField data "id" freshId
            name := name
            username := username
            password := password
            notes := (dictGet data "notes").getD none
            created_at := optField data "created_at" nowCreated
            updated_at := optField data "updated_at" nowUpdated }

/-! ### Encryption service (`src/pwmgr/crypto/encryption.py`) -/

/-- `EncryptionVersion.CBC`: legacy AES-256-CBC. -/
def EncryptionVersion.CBC : Nat := 1

/-- `EncryptionVersion.GCM`: AES-256-GCM (current). -/
def EncryptionVersion.GCM : Nat := 2

/-- `EncryptionService.SALT_LENGTH`. -/
def SALT_LENGTH : Nat := 16

/-- `EncryptionService.IV_LENGTH`. -/
def IV_LENGTH : Nat := 16

/-- `EncryptionService.GCM_TAG_LENGTH`. -/
def GCM_TAG_LENGTH : Nat := 16

/-- `EncryptionService.CURRENT_VERSION`. -/
def CURRENT_VERSION : Nat := EncryptionVersion.GCM

/-- `EncryptionService.encrypt_password_data`. The random salt (16 bytes from
`generate_salt`) and GCM nonce (12 bytes from `os.urandom(12)` inside
`_encrypt_gcm`) are explicit arguments; `encrypt_gcm` returns
(ciphertext, tag). Builds `version(1) + salt + nonce + tag + ciphertext` and
base64-encodes it. -/
def encrypt_password_data (pr : Prims) (data master_password : String)
    (salt nonce : Bytes) : String :=
  let key := pr.derive_key master_password salt
  let enc := pr.encrypt_gcm data key nonce
  b64encode (CURRENT_VERSION :: (salt ++ nonce ++ enc.2 ++ enc.1))

/-- `EncryptionService.decrypt_password_data`: base64-decode, branch on the
leading version byte, slice the fields, derive the key and decrypt. The
Python `try/except Exception: return None` maps every error branch to
`none`. -/
def decrypt_password_data (pr : Prims) (encrypted_data master_password : String) :
    Option String :=
  match b64decode encrypted_data with
  | none => none
  | some decoded =>
    if decoded.length < 1 then none
    else
      let version := decoded.headD 0
      if version = EncryptionVersion.GCM then
        let salt := (decoded.drop 1).take SALT_LENGTH
        let nonce := (decoded.drop (1 + SALT_LENGTH)).take 12
        let tag := (decoded.drop (1 + SALT_LENGTH + 12)).take GCM_TAG_LENGTH
        let ciphertext := decoded.drop (1 + SALT_LENGTH + 12 + GCM_TAG_LENGTH)
        let key := pr.derive_key master_password salt
        (pr.decrypt_gcm nonce ciphertext tag key).toOption
      else if version = EncryptionVersion.CBC then
        let salt := (decoded.drop 1).take SALT_LENGTH
        let iv := (decoded.drop (1 + SALT_LENGTH)).take IV_LENGTH
        let ciphertext := decoded.drop (1 + SALT_LENGTH + IV_LENGTH)
        let key := pr.derive_key master_password salt
        (pr.decrypt_cbc iv ciphertext key).toOption
      else
        let salt := decoded.take SALT_LENGTH
        let iv := (decoded.drop SALT_LENGTH).take IV_LENGTH
        let ciphertext := decoded.drop (SALT_LENGTH + IV_LENGTH)
        let key := pr.derive_key master_password salt
        (pr.decrypt_cbc iv ciphertext key).toOption

/-- `EncryptionService.migrate_to_gcm`: decrypt with the backward-compatible
path, then re-encrypt with GCM (fresh salt and nonce passed explicitly). -/
def migrate_to_gcm (pr : Prims) (encrypted_data master_password : String)
    (salt nonce : Bytes) : Option String :=
  match decrypt_password_data pr encrypted_data master_password with
  | none => none
  | some decrypted =>
    some (encrypt_password_data pr decrypted master_password salt nonce)

/-! ### Storage (`src/pwmgr/core/storage.py`)

The on-disk state visible to `PasswordStorage` is the vault file and the
sibling `.tmp` file, each either absent or holding text. `load` never writes,
so it is a pure function of the file contents. -/

/-- The vault file (`self.file_path`) and the temporary file
(`self.file_path + '.tmp'`); `none` means the file is absent. -/
structure FS where
  target : Option String
  temp : Option String
deriving DecidableEq

/-- The `finally` block of `save`: remove the temp file if it exists. -/
def temp_cleanup (fs : FS) : FS := { fs with temp := none }

/-- Fault injection points for `save`: no fault, an `OSError` raised while
writing the temp file (leaving it partially written), or an `OSError` raised
by `os.replace`. The `chmod` calls swallow `OSError` themselves and cannot
fail `save`; `os.remove` in the cleanup is assumed to succeed. -/
inductive SaveFault
  | noFault
  | atWrite
  | atRename
deriving DecidableEq

/-- The encrypted text `save` writes:
`encrypt_password_data(json.dumps({"entries": [e.to_dict() ...]}), mp)`. -/
def PasswordStorage.save_encrypted (pr : Prims) (entries : List PasswordEntry)
    (master_password : String) (salt nonce : Bytes) : String :=
  let data := entries.map PasswordEntry.to_dict
  let json_data := pr.json_dumps data
  encrypt_password_data pr json_data master_password salt nonce

/-- `PasswordStorage.save`: write the envelope to `file_path + '.tmp'`, then
`os.replace` it over the target; the `finally` block removes any remaining
temp file. `truncated` is the partial content present in the temp file when
the write itself fails. Returns the resulting filesystem state and the
propagated exception, if any. -/
def PasswordStorage.save (pr : Prims) (entries : List PasswordEntry)
    (master_password : String) (salt nonce : Bytes) (truncated : String)
    (fs : FS) (fault : SaveFault) : FS × Option PyErr :=
  let encrypted_data := PasswordStorage.save_encrypted pr entries master_password salt nonce
  match fault with
  | SaveFault.atWrite =>
    (temp_cleanup { fs with temp := some truncated }, some PyErr.ioError)
  | SaveFault.atRename =>
    (temp_cleanup { fs with temp := some encrypted_data }, some PyErr.ioError)
  | SaveFault.noFault =>
    (temp_cleanup { target := some encrypted_data, temp := none }, none)

/-- `PasswordStorage.load`. `Except.ok (some entries)` is a successful load,
`Except.ok none` is the Python `return None` (authentication failure),
`Except.error e` is an uncaught exception (`json.loads` / `from_dict`). -/
def PasswordStorage.load (pr : Prims) (file : Option String)
    (master_password freshId nowCreated nowUpdated : String) :
    Except PyErr (Option (List PasswordEntry)) :=
  match file with
  | none => Except.ok (some [])
  | some encrypted_data =>
    match decrypt_password_data pr encrypted_data master_password with
    | none => Except.ok none
    | some json_data =>
      match pr.json_loads json_data with
      | Except.error e => Except.error e
      | Except.ok dicts =>
        match dicts.mapM
            (fun d => PasswordEntry.from_dict d freshId nowCreated nowUpdated) with
        | Except.error e => Except.error e
        | Except.ok entries => Except.ok (some entries)

/-- `PasswordStorage.initialize`: `self.save([], master_password)` with no
check of the existing file (the directory-permission call does not touch the
vault file). -/
def PasswordStorage.initialize (pr : Prims) (fs : FS) (master_password : String)
    (salt nonce : Bytes) : FS :=
  (PasswordStorage.save pr [] master_password salt nonce "" fs SaveFault.noFault).1

/-- `PasswordStorage.is_valid_master_password`: `False` when the file is
absent, else `self.load(master_password) is not None`. -/
def PasswordStorage.is_valid_master_password (pr : Prims) (file : Option String)
    (master_password freshId nowCreated nowUpdated : String) : Except PyErr Bool :=
  match file with
  | none => Except.ok false
  | some _ =>
    match PasswordStorage.load pr file master_password freshId nowCreated nowUpdated with
    | Except.error e => Except.error e
    | Except.ok r => Except.ok r.isSome

/-! ### Evaluation lemmas for `decrypt_password_data` -/

theorem decrypt_eval_v2 (pr : Prims) (mp s : String) (salt nonce tag ct : Bytes)
    (hdec : b64decode s = some (2 :: (salt ++ nonce ++ tag ++ ct)))
    (hs : salt.length = 16) (hn : nonce.length = 12) (ht : tag.length = 16) :
    decrypt_password_data pr s mp =
      (pr.decrypt_gcm nonce ct tag (pr.derive_key mp salt)).toOption := by
  have d16 : (salt ++ (nonce ++ (tag ++ ct))).drop 16 = nonce ++ (tag ++ ct) :=
    List.drop_left' hs
  have d28 : (salt ++ (nonce ++ (tag ++ ct))).drop 28 = tag ++ ct := by
    rw [show (28 : Nat) = 16 + 12 by rfl, ← List.drop_drop, d16, List.drop_left' hn]
  have d44 : (salt ++ (nonce ++ (tag ++ ct))).drop 44 = ct := by
    rw [show (44 : Nat) = 28 + 16 by rfl, ← List.drop_drop, d28, List.drop_left' ht]
  unfold decrypt_password_data
  rw [hdec]
  simp only [SALT_LENGTH, GCM_TAG_LENGTH, IV_LENGTH, EncryptionVersion.GCM,
    EncryptionVersion.CBC, List.length_cons, List.headD_cons, List.drop_succ_cons,
    List.drop_zero]
  norm_num
  rw [List.take_left' hs, d16, d28, d44, List.take_left' hn, List.take_left' ht]

theorem decrypt_eval_v1 (pr : Prims) (mp s : String) (salt iv ct : Bytes)
    (hdec : b64decode s = some (1 :: (salt ++ iv ++ ct)))
    (hs : salt.length = 16) (hiv : iv.length = 16) :
    decrypt_password_data pr s mp =
      (pr.decrypt_cbc iv ct (pr.derive_key mp salt)).toOption := by
  have d16 : (salt ++ (iv ++ ct)).drop 16 = iv ++ ct := List.drop_left' hs
  have d32 : (salt ++ (iv ++ ct)).drop 32 = ct := by
    rw [show (32 : Nat) = 16 + 16 by rfl, ← List.drop_drop, d16, List.drop_left' hiv]
  unfold decrypt_password_data
  rw [hdec]
  simp only [SALT_LENGTH, GCM_TAG_LENGTH, IV_LENGTH, EncryptionVersion.GCM,
    EncryptionVersion.CBC, List.length_cons, List.headD_cons, List.drop_succ_cons,
    List.drop_zero]
  norm_num
  rw [List.take_left' hs, d16, d32, List.take_left' hiv]

theorem decrypt_eval_v2_slices (pr : Prims) (mp s : String) (rest : Bytes)
    (hdec : b64decode s = some (2 :: rest)) :
    decrypt_password_data pr s mp =
      (pr.decrypt_gcm ((rest.drop 16).take 12) (rest.drop 44) ((rest.drop 28).take 16)
        (pr.derive_key mp (rest.take 16))).toOption := by
  unfold decrypt_password_data
  rw [hdec]
  simp only [SALT_LENGTH, GCM_TAG_LENGTH, IV_LENGTH, EncryptionVersion.GCM,
    EncryptionVersion.CBC, List.length_cons, List.headD_cons]
  norm_num

theorem decrypt_eval_v1_slices (pr : Prims) (mp s : String) (rest : Bytes)
    (hdec : b64decode s = some (1 :: rest)) :
    decrypt_password_data pr s mp =
      (pr.decrypt_cbc ((rest.drop 16).take 16) (rest.drop 32)
        (pr.derive_key mp (rest.take 16))).toOption := by
  unfold decrypt_password_data
  rw [hdec]
  simp only [SALT_LENGTH, GCM_TAG_LENGTH, IV_LENGTH, EncryptionVersion.GCM,
    EncryptionVersion.CBC, List.length_cons, List.headD_cons]
  norm_num

theorem decrypt_eval_legacy (pr : Prims) (mp s : String) (v : Nat) (rest : Bytes)
    (hdec : b64decode s = some (v :: rest)) (hv1 : v ≠ 1) (hv2 : v ≠ 2) :
    decrypt_password_data pr s mp =
      (pr.decrypt_cbc (((v :: rest).drop 16).take 16) ((v :: rest).drop 32)
        (pr.derive_key mp ((v :: rest).take 16))).toOption := by
  unfold decrypt_password_data
  rw [hdec]
  simp only [SALT_LENGTH, GCM_TAG_LENGTH, IV_LENGTH, EncryptionVersion.GCM,
    EncryptionVersion.CBC, List.length_cons, List.headD_cons]
  norm_num [hv1, hv2]

theorem byteValid_append (xs ys : Bytes) (hx : ByteValid xs) (hy : ByteValid ys) :
    ByteValid (xs ++ ys) := by
  intro b hb
  rcases List.mem_append.mp hb with h | h
  · exact hx b h
  · exact hy b h

theorem byteValid_cons (a : Nat) (xs : Bytes) (ha : a < 256) (hx : ByteValid xs) :
    ByteValid (a :: xs) := by
  intro b hb
  rcases List.mem_cons.mp hb with rfl | h
  · exact ha
  · exact hx b h

/-- The base64 form of the GCM envelope that `encrypt_password_data` emits,
by the base64 round trip. -/
theorem encrypt_password_data_decode (pr : Prims) (data mp : String) (salt nonce : Bytes)
    (hvs : ByteValid salt) (hvn : ByteValid nonce)
    (hvt : ByteValid (pr.encrypt_gcm data (pr.derive_key mp salt) nonce).2)
    (hvc : ByteValid (pr.encrypt_gcm data (pr.derive_key mp salt) nonce).1) :
    b64decode (encrypt_password_data pr data mp salt nonce) =
      some (2 :: (salt ++ nonce ++ (pr.encrypt_gcm data (pr.derive_key mp salt) nonce).2 ++
        (pr.encrypt_gcm data (pr.derive_key mp salt) nonce).1)) := by
  unfold encrypt_password_data
  simp only [CURRENT_VERSION, EncryptionVersion.GCM]
  exact b64_roundtrip _ (byteValid_cons _ _ (by omega)
    (byteValid_append _ _ (byteValid_append _ _ (byteValid_append _ _ hvs hvn) hvt) hvc))

/-! ### A concrete primitive instance for the witness theorems -/

/-- Code points of a string: a reversible byte rendering of ASCII plaintext,
used by the witness primitives as their "ciphertext". -/
def strBytes (s : String) : Bytes := s.toList.map Char.toNat

/-- Inverse of `strBytes` on valid code points. -/
def bytesStr (bs : Bytes) : String := String.mk (bs.map Char.ofNat)

/-- A 16-byte keyed checksum standing in for the GCM authentication tag /
CBC padding check in the witness instance. -/
def toyTag (key nonce ct : Bytes) : Bytes :=
  List.replicate 16 ((key ++ nonce ++ ct).foldl (fun a b => (a * 31 + b) % 256) 7)

/-- Concrete primitives for the witness theorems; they satisfy the pointwise
contract hypotheses at the witnesses' inputs. -/
def toyPrims : Prims where
  derive_key := fun mp salt => strBytes mp ++ salt
  encrypt_gcm := fun data key nonce => (strBytes data, toyTag key nonce (strBytes data))
  decrypt_gcm := fun nonce ct tag key =>
    if tag = toyTag key nonce ct then Except.ok (bytesStr ct)
    else Except.error PyErr.invalidTag
  encrypt_cbc := fun data key iv => strBytes data ++ toyTag key iv (strBytes data)
  decrypt_cbc := fun iv ct key =>
    if ct.drop (ct.length - 16) = toyTag key iv (ct.take (ct.length - 16)) then
      Except.ok (bytesStr (ct.take (ct.length - 16)))
    else Except.error PyErr.paddingError
  json_dumps := fun ds => if ds = [] then "[]" else "*"
  json_loads := fun s => if s = "[]" then Except.ok [] else Except.error PyErr.jsonError

instance {e a : Type} [DecidableEq e] [DecidableEq a] : DecidableEq (Except e a) := fun x y =>
  match x, y with
  | Except.ok v, Except.ok w =>
    if h : v = w then isTrue (h ▸ rfl) else isFalse (fun he => h (Except.ok.inj he))
  | Except.error v, Except.error w =>
    if h : v = w then isTrue (h ▸ rfl) else isFalse (fun he => h (Except.error.inj he))
  | Except.ok _, Except.error _ => isFalse (fun he => Except.noConfusion he)
  | Except.error _, Except.ok _ => isFalse (fun he => Except.noConfusion he)

/-- When `decrypt_password_data` yields `None`, `load` returns the `None`
authentication-failure signal (and in particular raises nothing). -/
theorem load_auth_failure (pr : Prims) (c mp freshId nowCreated nowUpdated : String)
    (h : decrypt_password_data pr c mp = none) :
    PasswordStorage.load pr (some c) mp freshId nowCreated nowUpdated = Except.ok none := by
  unfold PasswordStorage.load
  simp only [h]

/-! ### Claims -/

/-- C1: for every plaintext string P and master password M,
`decrypt_password_data (encrypt_password_data P M) M = P`. The AES-GCM /
PBKDF2 contract is assumed pointwise: the salt is 16 bytes, the nonce 12, the
tag 16, all output bytes are bytes, and GCM decryption inverts GCM encryption
under the same key. -/
theorem c1_encrypt_decrypt_roundtrip (pr : Prims) (P M : String) (salt nonce : Bytes)
    (hs : salt.length = 16) (hn : nonce.length = 12)
    (hvs : ByteValid salt) (hvn : ByteValid nonce)
    (hvt : ByteValid (pr.encrypt_gcm P (pr.derive_key M salt) nonce).2)
    (hvc : ByteValid (pr.encrypt_gcm P (pr.derive_key M salt) nonce).1)
    (ht : (pr.encrypt_gcm P (pr.derive_key M salt) nonce).2.length = 16)
    (hrt : pr.decrypt_gcm nonce (pr.encrypt_gcm P (pr.derive_key M salt) nonce).1
      (pr.encrypt_gcm P (pr.derive_key M salt) nonce).2 (pr.derive_key M salt) =
      Except.ok P) :
    decrypt_password_data pr (encrypt_password_data pr P M salt nonce) M = some P := by
  rw [decrypt_eval_v2 pr M _ salt nonce _ _
    (encrypt_password_data_decode pr P M salt nonce hvs hvn hvt hvc) hs hn ht, hrt]
  rfl

/-- Witness for C1: concrete round trip through the witness primitives. -/
theorem c1_witness :
    decrypt_password_data toyPrims
      (encrypt_password_data toyPrims "pw" "m" (List.replicate 16 0) (List.replicate 12 1))
      "m" = some "pw" :=
  c1_encrypt_decrypt_roundtrip toyPrims "pw" "m" (List.replicate 16 0) (List.replicate 12 1)
    (by decide) (by decide) (by decide) (by decide) (by decide) (by decide) (by decide)
    (by decide)

/-- C2: with a wrong master password, `load` returns the `None`
authentication-failure signal and propagates no low-level exception: first
for any stored text whose decryption fails, then for the GCM envelope
`encrypt_password_data P M` read with password `wrong`, then for a
version-1 (CBC) envelope. Failure of the cipher primitives under the
wrong-password key is the pointwise hypothesis. -/
theorem c2_wrong_password_normalized (pr : Prims)
    (P M wrong contents freshId nowCreated nowUpdated : String) (salt nonce iv : Bytes)
    (hs : salt.length = 16) (hn : nonce.length = 12) (hiv : iv.length = 16)
    (hvs : ByteValid salt) (hvn : ByteValid nonce) (hviv : ByteValid iv)
    (hvt : ByteValid (pr.encrypt_gcm P (pr.derive_key M salt) nonce).2)
    (hvc : ByteValid (pr.encrypt_gcm P (pr.derive_key M salt) nonce).1)
    (hvcc : ByteValid (pr.encrypt_cbc P (pr.derive_key M salt) iv))
    (ht : (pr.encrypt_gcm P (pr.derive_key M salt) nonce).2.length = 16)
    (hauth : decrypt_password_data pr contents wrong = none)
    (hgfail : (pr.decrypt_gcm nonce (pr.encrypt_gcm P (pr.derive_key M salt) nonce).1
      (pr.encrypt_gcm P (pr.derive_key M salt) nonce).2
      (pr.derive_key wrong salt)).toOption = none)
    (hcfail : (pr.decrypt_cbc iv (pr.encrypt_cbc P (pr.derive_key M salt) iv)
      (pr.derive_key wrong salt)).toOption = none) :
    PasswordStorage.load pr (some contents) wrong freshId nowCreated nowUpdated =
      Except.ok none ∧
    PasswordStorage.load pr (some (encrypt_password_data pr P M salt nonce)) wrong
      freshId nowCreated nowUpdated = Except.ok none ∧
    PasswordStorage.load pr
      (some (b64encode (1 :: (salt ++ iv ++ pr.encrypt_cbc P (pr.derive_key M salt) iv))))
      wrong freshId nowCreated nowUpdated = Except.ok none := by
  refine ⟨load_auth_failure pr contents wrong _ _ _ hauth, ?_, ?_⟩
  · refine load_auth_failure pr _ wrong _ _ _ ?_
    rw [decrypt_eval_v2 pr wrong _ salt nonce _ _
      (encrypt_password_data_decode pr P M salt nonce hvs hvn hvt hvc) hs hn ht]
    exact hgfail
  · refine load_auth_failure pr _ wrong _ _ _ ?_
    have hdec : b64decode
        (b64encode (1 :: (salt ++ iv ++ pr.encrypt_cbc P (pr.derive_key M salt) iv))) =
        some (1 :: (salt ++ iv ++ pr.encrypt_cbc P (pr.derive_key M salt) iv)) :=
      b64_roundtrip _ (byteValid_cons _ _ (by omega)
        (byteValid_append _ _ (byteValid_append _ _ hvs hviv) hvcc))
    rw [decrypt_eval_v1 pr wrong _ salt iv _ hdec hs hiv]
    exact hcfail

/-- Witness for C2 at concrete inputs: wrong-password loads of an empty file
body, of a GCM envelope, and of a CBC envelope, all through the witness
primitives. -/
theorem c2_witness :
    PasswordStorage.load toyPrims (some "") "w" "i" "c" "u" = Except.ok none ∧
    PasswordStorage.load toyPrims
      (some (encrypt_password_data toyPrims "pw" "m" (List.replicate 16 0)
        (List.replicate 12 1))) "w" "i" "c" "u" = Except.ok none ∧
    PasswordStorage.load toyPrims
      (some (b64encode (1 :: (List.replicate 16 0 ++ List.replicate 16 2 ++
        toyPrims.encrypt_cbc "pw" (toyPrims.derive_key "m" (List.replicate 16 0))
          (List.replicate 16 2))))) "w" "i" "c" "u" = Except.ok none :=
  c2_wrong_password_normalized toyPrims "pw" "m" "w" "" "i" "c" "u"
    (List.replicate 16 0) (List.replicate 12 1) (List.replicate 16 2)
    (by decide) (by decide) (by decide) (by decide) (by decide) (by decide) (by decide)
    (by decide) (by decide) (by decide) (by decide) (by decide) (by decide)

/-- C8: when the vault file is absent, `load` returns the empty entry list
as a success, for every master password. -/
theorem c8_absent_file_load (pr : Prims) (mp freshId nowCreated nowUpdated : String) :
    PasswordStorage.load pr none mp freshId nowCreated nowUpdated =
      Except.ok (some []) := rfl

/-- Counterexample to C3: with the file absent, `load` succeeds (returns the
empty collection) while `is_valid_master_password` returns `False`, so the
claimed equivalence between the two fails on that on-disk state. -/
theorem c3_counterexample :
    PasswordStorage.load toyPrims none "p" "i" "c" "u" = Except.ok (some []) ∧
    PasswordStorage.is_valid_master_password toyPrims none "p" "i" "c" "u" =
      Except.ok false :=
  ⟨rfl, rfl⟩

/-- C3 as amended: when the vault file exists, `is_valid_master_password`
returns exactly the success of `load` (propagating the same exception when
`load` raises); when the file is absent it returns `False` even though `load`
succeeds with the empty collection. Both operations are pure functions of
the file contents, so neither changes the on-disk state. -/
theorem c3_is_valid_amended (pr : Prims) (contents mp freshId nowCreated nowUpdated : String) :
    PasswordStorage.is_valid_master_password pr (some contents) mp
        freshId nowCreated nowUpdated =
      (PasswordStorage.load pr (some contents) mp freshId nowCreated nowUpdated).map
        Option.isSome ∧
    PasswordStorage.is_valid_master_password pr none mp freshId nowCreated nowUpdated =
      Except.ok false := by
  constructor
  · unfold PasswordStorage.is_valid_master_password
    cases h : PasswordStorage.load pr (some contents) mp freshId nowCreated nowUpdated with
    | error e => simp [Except.map]
    | ok r => simp [Except.map]
  · rfl

/-- C7: whatever fault `save` hits (at the temp-file write or at the rename),
the target file is byte-for-byte the one from before and no temp file
remains; when `save` succeeds, the target holds exactly the new envelope and
no temp file remains. -/
theorem c7_atomic_save (pr : Prims) (entries : List PasswordEntry) (mp : String)
    (salt nonce : Bytes) (truncated : String) (fs : FS) (fault : SaveFault) :
    ((PasswordStorage.save pr entries mp salt nonce truncated fs fault).2.isSome →
      (PasswordStorage.save pr entries mp salt nonce truncated fs fault).1.target =
        fs.target ∧
      (PasswordStorage.save pr entries mp salt nonce truncated fs fault).1.temp = none) ∧
    ((PasswordStorage.save pr entries mp salt nonce truncated fs fault).2 = none →
      (PasswordStorage.save pr entries mp salt nonce truncated fs fault).1.target =
        some (PasswordStorage.save_encrypted pr entries mp salt nonce) ∧
      (PasswordStorage.save pr entries mp salt nonce truncated fs fault).1.temp = none) := by
  cases fault <;> simp [PasswordStorage.save, temp_cleanup]

/-- Witness for C7: a failed rename over an existing vault leaves the old
contents in place and no temp file behind. -/
theorem c7_witness :
    (PasswordStorage.save toyPrims [] "m" (List.replicate 16 0) (List.replicate 12 1)
      "t" (FS.mk (some "orig") none) SaveFault.atRename).1.target = some "orig" ∧
    (PasswordStorage.save toyPrims [] "m" (List.replicate 16 0) (List.replicate 12 1)
      "t" (FS.mk (some "orig") none) SaveFault.atRename).1.temp = none :=
  (c7_atomic_save toyPrims [] "m" (List.replicate 16 0) (List.replicate 12 1) "t"
    (FS.mk (some "orig") none) SaveFault.atRename).1 (by decide)

/-- C9: `initialize` never looks at the existing file: for every prior
filesystem state it overwrites the target with the envelope of the empty
vault (destroying any previous entries), and a subsequent `load` with the
same password returns the empty entry list. The AES-GCM/PBKDF2 and JSON
contracts are assumed pointwise at the empty vault. -/
theorem c9_initialize_overwrites (pr : Prims) (fs : FS)
    (mp freshId nowCreated nowUpdated : String) (salt nonce : Bytes)
    (hs : salt.length = 16) (hn : nonce.length = 12)
    (hvs : ByteValid salt) (hvn : ByteValid nonce)
    (hvt : ByteValid (pr.encrypt_gcm (pr.json_dumps []) (pr.derive_key mp salt) nonce).2)
    (hvc : ByteValid (pr.encrypt_gcm (pr.json_dumps []) (pr.derive_key mp salt) nonce).1)
    (ht : (pr.encrypt_gcm (pr.json_dumps []) (pr.derive_key mp salt) nonce).2.length = 16)
    (hrt : pr.decrypt_gcm nonce
      (pr.encrypt_gcm (pr.json_dumps []) (pr.derive_key mp salt) nonce).1
      (pr.encrypt_gcm (pr.json_dumps []) (pr.derive_key mp salt) nonce).2
      (pr.derive_key mp salt) = Except.ok (pr.json_dumps []))
    (hjson : pr.json_loads (pr.json_dumps []) = Except.ok []) :
    ( PasswordStorage.initialize pr fs mp salt nonce).target =
      some (encrypt_password_data pr (pr.json_dumps []) mp salt nonce) ∧
    ( PasswordStorage.initialize pr fs mp salt nonce).temp = none ∧
    PasswordStorage.load pr ( PasswordStorage.initialize pr fs mp salt nonce).target mp
      freshId nowCreated nowUpdated = Except.ok (some []) := by
  have htgt : ( PasswordStorage.initialize pr fs mp salt nonce).target =
      some (encrypt_password_data pr (pr.json_dumps []) mp salt nonce) := by
    simp [ PasswordStorage.initialize, PasswordStorage.save, PasswordStorage.save_encrypted,
      temp_cleanup]
  have htmp : ( PasswordStorage.initialize pr fs mp salt nonce).temp = none := by
    simp [ PasswordStorage.initialize, PasswordStorage.save, temp_cleanup]
  have hdecr : decrypt_password_data pr
      (encrypt_password_data pr (pr.json_dumps []) mp salt nonce) mp =
      some (pr.json_dumps []) := by
    rw [decrypt_eval_v2 pr mp _ salt nonce _ _
      (encrypt_password_data_decode pr (pr.json_dumps []) mp salt nonce hvs hvn hvt hvc)
      hs hn ht, hrt]
    rfl
  refine ⟨htgt, htmp, ?_⟩
  rw [htgt]
  unfold PasswordStorage.load
  simp only [hdecr, hjson]
  rfl

/-- C4: a version-1 (CBC) container decrypts to its plaintext via the legacy
path; `migrate_to_gcm` on it with the correct password returns the GCM
re-encryption, whose post-base64 leading byte is 2 and which decrypts to the
same plaintext; with a password whose key fails legacy decryption,
`migrate_to_gcm` returns `None`. The CBC/GCM contracts are assumed pointwise. -/
theorem c4_legacy_migration (pr : Prims) (P M wrong : String)
    (salt iv salt2 nonce2 : Bytes)
    (hs : salt.length = 16) (hiv : iv.length = 16)
    (hs2 : salt2.length = 16) (hn2 : nonce2.length = 12)
    (hvs : ByteValid salt) (hviv : ByteValid iv)
    (hvs2 : ByteValid salt2) (hvn2 : ByteValid nonce2)
    (hvcc : ByteValid (pr.encrypt_cbc P (pr.derive_key M salt) iv))
    (hvt2 : ByteValid (pr.encrypt_gcm P (pr.derive_key M salt2) nonce2).2)
    (hvc2 : ByteValid (pr.encrypt_gcm P (pr.derive_key M salt2) nonce2).1)
    (ht2 : (pr.encrypt_gcm P (pr.derive_key M salt2) nonce2).2.length = 16)
    (hcbc : pr.decrypt_cbc iv (pr.encrypt_cbc P (pr.derive_key M salt) iv)
      (pr.derive_key M salt) = Except.ok P)
    (hrt2 : pr.decrypt_gcm nonce2 (pr.encrypt_gcm P (pr.derive_key M salt2) nonce2).1
      (pr.encrypt_gcm P (pr.derive_key M salt2) nonce2).2 (pr.derive_key M salt2) =
      Except.ok P)
    (hcfail : (pr.decrypt_cbc iv (pr.encrypt_cbc P (pr.derive_key M salt) iv)
      (pr.derive_key wrong salt)).toOption = none) :
    decrypt_password_data pr
      (b64encode (1 :: (salt ++ iv ++ pr.encrypt_cbc P (pr.derive_key M salt) iv))) M =
      some P ∧
    migrate_to_gcm pr
      (b64encode (1 :: (salt ++ iv ++ pr.encrypt_cbc P (pr.derive_key M salt) iv))) M
      salt2 nonce2 = some (encrypt_password_data pr P M salt2 nonce2) ∧
    b64decode (encrypt_password_data pr P M salt2 nonce2) =
      some (2 :: (salt2 ++ nonce2 ++ (pr.encrypt_gcm P (pr.derive_key M salt2) nonce2).2 ++
        (pr.encrypt_gcm P (pr.derive_key M salt2) nonce2).1)) ∧
    decrypt_password_data pr (encrypt_password_data pr P M salt2 nonce2) M = some P ∧
    migrate_to_gcm pr
      (b64encode (1 :: (salt ++ iv ++ pr.encrypt_cbc P (pr.derive_key M salt) iv))) wrong
      salt2 nonce2 = none := by
  have hdec1 : b64decode
      (b64encode (1 :: (salt ++ iv ++ pr.encrypt_cbc P (pr.derive_key M salt) iv))) =
      some (1 :: (salt ++ iv ++ pr.encrypt_cbc P (pr.derive_key M salt) iv)) :=
    b64_roundtrip _ (byteValid_cons _ _ (by omega)
      (byteValid_append _ _ (byteValid_append _ _ hvs hviv) hvcc))
  have hd1 : decrypt_password_data pr
      (b64encode (1 :: (salt ++ iv ++ pr.encrypt_cbc P (pr.derive_key M salt) iv))) M =
      some P := by
    rw [decrypt_eval_v1 pr M _ salt iv _ hdec1 hs hiv, hcbc]
    rfl
  have hdfail : decrypt_password_data pr
      (b64encode (1 :: (salt ++ iv ++ pr.encrypt_cbc P (pr.derive_key M salt) iv))) wrong =
      none := by
    rw [decrypt_eval_v1 pr wrong _ salt iv _ hdec1 hs hiv]
    exact hcfail
  refine ⟨hd1, ?_,
    encrypt_password_data_decode pr P M salt2 nonce2 hvs2 hvn2 hvt2 hvc2, ?_, ?_⟩
  · unfold migrate_to_gcm
    simp only [hd1]
  · rw [decrypt_eval_v2 pr M _ salt2 nonce2 _ _
      (encrypt_password_data_decode pr P M salt2 nonce2 hvs2 hvn2 hvt2 hvc2) hs2 hn2 ht2,
      hrt2]
    rfl
  · unfold migrate_to_gcm
    simp only [hdfail]

/-- Witness for C4: concrete CBC container, migration and failed migration
through the witness primitives. -/
theorem c4_witness :
    decrypt_password_data toyPrims
      (b64encode (1 :: (List.replicate 16 0 ++ List.replicate 16 2 ++
        toyPrims.encrypt_cbc "pw" (toyPrims.derive_key "m" (List.replicate 16 0))
          (List.replicate 16 2)))) "m" = some "pw" ∧
    migrate_to_gcm toyPrims
      (b64encode (1 :: (List.replicate 16 0 ++ List.replicate 16 2 ++
        toyPrims.encrypt_cbc "pw" (toyPrims.derive_key "m" (List.replicate 16 0))
          (List.replicate 16 2)))) "m" (List.replicate 16 3) (List.replicate 12 4) =
      some (encrypt_password_data toyPrims "pw" "m" (List.replicate 16 3)
        (List.replicate 12 4)) ∧
    b64decode (encrypt_password_data toyPrims "pw" "m" (List.replicate 16 3)
        (List.replicate 12 4)) =
      some (2 :: (List.replicate 16 3 ++ List.replicate 12 4 ++
        (toyPrims.encrypt_gcm "pw" (toyPrims.derive_key "m" (List.replicate 16 3))
          (List.replicate 12 4)).2 ++
        (toyPrims.encrypt_gcm "pw" (toyPrims.derive_key "m" (List.replicate 16 3))
          (List.replicate 12 4)).1)) ∧
    decrypt_password_data toyPrims
      (encrypt_password_data toyPrims "pw" "m" (List.replicate 16 3)
        (List.replicate 12 4)) "m" = some "pw" ∧
    migrate_to_gcm toyPrims
      (b64encode (1 :: (List.replicate 16 0 ++ List.replicate 16 2 ++
        toyPrims.encrypt_cbc "pw" (toyPrims.derive_key "m" (List.replicate 16 0))
          (List.replicate 16 2)))) "w" (List.replicate 16 3) (List.replicate 12 4) =
      none :=
  c4_legacy_migration toyPrims "pw" "m" "w" (List.replicate 16 0) (List.replicate 16 2)
    (List.replicate 16 3) (List.replicate 12 4) (by decide) (by decide) (by decide)
    (by decide) (by decide) (by decide) (by decide) (by decide) (by decide) (by decide)
    (by decide) (by decide) (by decide) (by decide) (by decide)

/-- C5: the encoder emits base64 text whose decoded bytes are
`version-byte 2 || salt(16) || nonce(12) || tag(16) || ciphertext`, and the
decoder base64-decodes and branches on the leading byte before slicing:
2 is parsed as salt(16)+nonce(12)+tag(16)+ciphertext, 1 as
salt(16)+iv(16)+ciphertext, and any other leading byte falls back to the
pre-versioning salt(16)+iv(16)+ciphertext layout over the whole buffer. -/
theorem c5_container_layout (pr : Prims) (P M mp : String) (salt nonce : Bytes)
    (s2 s1 s0 : String) (rest2 rest1 rest0 : Bytes) (v0 : Nat)
    (hs : salt.length = 16) (hn : nonce.length = 12)
    (ht : (pr.encrypt_gcm P (pr.derive_key M salt) nonce).2.length = 16)
    (hvs : ByteValid salt) (hvn : ByteValid nonce)
    (hvt : ByteValid (pr.encrypt_gcm P (pr.derive_key M salt) nonce).2)
    (hvc : ByteValid (pr.encrypt_gcm P (pr.derive_key M salt) nonce).1)
    (hdec2 : b64decode s2 = some (2 :: rest2))
    (hdec1 : b64decode s1 = some (1 :: rest1))
    (hdec0 : b64decode s0 = some (v0 :: rest0))
    (hv01 : v0 ≠ 1) (hv02 : v0 ≠ 2) :
    (b64decode (encrypt_password_data pr P M salt nonce) =
      some (2 :: (salt ++ nonce ++ (pr.encrypt_gcm P (pr.derive_key M salt) nonce).2 ++
        (pr.encrypt_gcm P (pr.derive_key M salt) nonce).1)) ∧
      salt.length = 16 ∧ nonce.length = 12 ∧
      (pr.encrypt_gcm P (pr.derive_key M salt) nonce).2.length = 16) ∧
    decrypt_password_data pr s2 mp =
      (pr.decrypt_gcm ((rest2.drop 16).take 12) (rest2.drop 44) ((rest2.drop 28).take 16)
        (pr.derive_key mp (rest2.take 16))).toOption ∧
    decrypt_password_data pr s1 mp =
      (pr.decrypt_cbc ((rest1.drop 16).take 16) (rest1.drop 32)
        (pr.derive_key mp (rest1.take 16))).toOption ∧
    decrypt_password_data pr s0 mp =
      (pr.decrypt_cbc (((v0 :: rest0).drop 16).take 16) ((v0 :: rest0).drop 32)
        (pr.derive_key mp ((v0 :: rest0).take 16))).toOption :=
  ⟨⟨encrypt_password_data_decode pr P M salt nonce hvs hvn hvt hvc, hs, hn, ht⟩,
   decrypt_eval_v2_slices pr mp s2 rest2 hdec2,
   decrypt_eval_v1_slices pr mp s1 rest1 hdec1,
   decrypt_eval_legacy pr mp s0 v0 rest0 hdec0 hv01 hv02⟩

/-- Witness for C5: the layout conjunct at concrete inputs via the witness
primitives. -/
theorem c5_witness :
    b64decode (encrypt_password_data toyPrims "pw" "m" (List.replicate 16 0)
        (List.replicate 12 1)) =
      some (2 :: (List.replicate 16 0 ++ List.replicate 12 1 ++
        (toyPrims.encrypt_gcm "pw" (toyPrims.derive_key "m" (List.replicate 16 0))
          (List.replicate 12 1)).2 ++
        (toyPrims.encrypt_gcm "pw" (toyPrims.derive_key "m" (List.replicate 16 0))
          (List.replicate 12 1)).1)) :=
  (c5_container_layout toyPrims "pw" "m" "x" (List.replicate 16 0) (List.replicate 12 1)
    (b64encode (2 :: List.replicate 45 5)) (b64encode (1 :: List.replicate 33 6))
    (b64encode (0 :: List.replicate 33 7)) (List.replicate 45 5) (List.replicate 33 6)
    (List.replicate 33 7) 0 (by decide) (by decide) (by decide) (by decide) (by decide)
    (by decide) (by decide) (by decide) (by decide) (by decide) (by decide)
    (by decide)).1.1

/-- Counterexample to C6: an undecodable input (`"AA"`), an empty decoded
buffer (`""`), and a wrong-password authentication failure all make
`decrypt_password_data` return the one `None` signal — the caller cannot
tell a decode failure apart from an authentication failure. -/
theorem c6_counterexample :
    decrypt_password_data toyPrims "AA" "x" = none ∧
    decrypt_password_data toyPrims "" "x" = none ∧
    decrypt_password_data toyPrims
      (encrypt_password_data toyPrims "pw" "correct" (List.replicate 16 0)
        (List.replicate 12 1)) "x" = none := by
  refine ⟨rfl, rfl, by decide⟩

/-- C6 as amended: decode failures are not a distinct error — an undecodable
text or an empty decoded buffer yields exactly the `None` signal that also
reports authentication failure. -/
theorem c6_decode_failure_amended (pr : Prims) (s mp : String)
    (hfail : b64decode s = none ∨ b64decode s = some []) :
    decrypt_password_data pr s mp = none := by
  rcases hfail with h | h
  · simp [decrypt_password_data, h]
  · simp [decrypt_password_data, h]

/-- Witness for the amended C6 at an undecodable input. -/
theorem c6_amended_witness : decrypt_password_data toyPrims "AA" "y" = none :=
  c6_decode_failure_amended toyPrims "AA" "y" (Or.inl (by decide))

/-- C10: `from_dict` inverts `to_dict` on all seven fields; a dict carrying
only the three required keys still succeeds, filling `id`, `notes`,
`created_at`, `updated_at` with the defaults; a dict missing `name`,
`username` or `password` makes `from_dict` raise. -/
theorem c10_entry_dict_roundtrip (e : PasswordEntry) (d : Dict)
    (freshId nowCreated nowUpdated : String) :
    PasswordEntry.from_dict (PasswordEntry.to_dict e) freshId nowCreated nowUpdated =
      Except.ok e ∧
    PasswordEntry.from_dict
        [("name", some e.name), ("username", some e.username),
         ("password", some e.password)] freshId nowCreated nowUpdated =
      Except.ok (PasswordEntry.mk e.name e.username e.password none freshId
        nowCreated nowUpdated) ∧
    ((dictGet d "name" = none ∨ dictGet d "username" = none ∨
        dictGet d "password" = none) →
      ∃ err, PasswordEntry.from_dict d freshId nowCreated nowUpdated =
        Except.error err) := by
  refine ⟨rfl, rfl, ?_⟩
  intro h
  unfold PasswordEntry.from_dict
  rcases h with h | h | h
  · unfold reqField
    rw [h]
    exact ⟨PyErr.keyError, rfl⟩
  · cases hname : reqField d "name" with
    | error e1 => exact ⟨e1, rfl⟩
    | ok name =>
      have : reqField d "username" = Except.error PyErr.keyError := by
        unfold reqField
        rw [h]
      rw [this]
      exact ⟨PyErr.keyError, rfl⟩
  · cases hname : reqField d "name" with
    | error e1 => exact ⟨e1, rfl⟩
    | ok name =>
      cases huser : reqField d "username" with
      | error e2 => exact ⟨e2, rfl⟩
      | ok username =>
        have : reqField d "password" = Except.error PyErr.keyError := by
          unfold reqField
          rw [h]
        rw [this]
        exact ⟨PyErr.keyError, rfl⟩

/-- Witness for C10 at a concrete entry and a dict missing `password`. -/
theorem c10_witness :
    PasswordEntry.from_dict
      (PasswordEntry.to_dict
        (PasswordEntry.mk "github" "alice" "s3cret" (some "note") "id1" "t1" "t2"))
      "f" "c1" "u1" =
      Except.ok (PasswordEntry.mk "github" "alice" "s3cret" (some "note") "id1" "t1" "t2") ∧
    (∃ err, PasswordEntry.from_dict [("name", some "github"), ("username", some "alice")]
      "f" "c1" "u1" = Except.error err) :=
  ⟨(c10_entry_dict_roundtrip
      (PasswordEntry.mk "github" "alice" "s3cret" (some "note") "id1" "t1" "t2")
      [("name", some "github"), ("username", some "alice")] "f" "c1" "u1").1,
   (c10_entry_dict_roundtrip
      (PasswordEntry.mk "github" "alice" "s3cret" (some "note") "id1" "t1" "t2")
      [("name", some "github"), ("username", some "alice")] "f" "c1" "u1").2.2
     (Or.inr (Or.inr (by decide)))⟩

/-- Witness for C9: concrete initialization over a non-empty prior vault. -/
theorem c9_witness :
    ( PasswordStorage.initialize toyPrims (FS.mk (some "old") none) "m"
      (List.replicate 16 0) (List.replicate 12 1)).target =
      some (encrypt_password_data toyPrims (toyPrims.json_dumps []) "m"
        (List.replicate 16 0) (List.replicate 12 1)) ∧
    ( PasswordStorage.initialize toyPrims (FS.mk (some "old") none) "m"
      (List.replicate 16 0) (List.replicate 12 1)).temp = none ∧
    PasswordStorage.load toyPrims
      ( PasswordStorage.initialize toyPrims (FS.mk (some "old") none) "m"
        (List.replicate 16 0) (List.replicate 12 1)).target "m" "i" "c" "u" =
      Except.ok (some []) :=
  c9_initialize_overwrites toyPrims (FS.mk (some "old") none) "m" "i" "c" "u"
    (List.replicate 16 0) (List.replicate 12 1) (by decide) (by decide) (by decide)
    (by decide) (by decide) (by decide) (by decide) (by decide) (by decide)

end PwMgr
